import Mathlib

/-!
# Order Execution Engine — verification of the order-processing pipeline

A shallow embedding, in Lean 4, of the core of the Order-Execution-Engine
repository: the mock DEX router (quote engine + routing selector +
execution simulator), the BullMQ order worker state machine with its
retry logic, the WebSocket notification broadcaster, and the Redis-backed
order state store.

JavaScript numbers are modelled as rationals (ℚ).  Each call to
`Math.random()` is modelled as an explicit parameter `u` with the
contract `0 ≤ u < 1`.  Asynchronous effects (Redis, PostgreSQL, the
WebSocket emit) are modelled by an explicit environment that records, per
call site, whether the awaited call succeeds or rejects, and the worker
body is translated into a pure function from that environment to the
trace of emissions and store writes it produces together with its result
(return value, or the exception re-thrown to the queue broker).
-/

namespace OrderEngine

/-- `Math.random() * (max - min) + min`, with the draw `u` made explicit
(`randomBetween` in `mock-dex-router.service.ts`). -/
def randomBetween (min max u : ℚ) : ℚ :=
  u * (max - min) + min

/-- `DexName` from `types/order.ts`. -/
inductive DexName where
  | RAYDIUM
  | METEORA
deriving DecidableEq, Repr

/-- String form of a `DexName`, as produced by template-string
interpolation of the union-typed value in the source. -/
def dexNameStr : DexName → String
  | .RAYDIUM => "RAYDIUM"
  | .METEORA => "METEORA"

/-- `DexQuote` from `types/order.ts`; `liquidity` is an optional field. -/
structure DexQuote where
  dex : DexName
  price : ℚ
  fee : ℚ
  netPrice : ℚ
  amountOut : ℚ
  liquidity : Option ℚ
deriving DecidableEq, Repr

/-- JavaScript truthiness of an optional number (`undefined` and `0` are
falsy). -/
def optTruthy : Option ℚ → Bool
  | none => false
  | some x => decide (x ≠ 0)

/-- The three `Math.random()` draws one venue-quote call makes:
base rate, fee percentage, liquidity. -/
structure QuoteRand where
  uPrice : ℚ
  uFee : ℚ
  uLiq : ℚ
deriving DecidableEq, Repr

/-- `getRaydiumQuote` (`mock-dex-router.service.ts`): base price drawn in
[95,105), fee percentage in [0.0025,0.003), liquidity in [1e6,5e6). -/
def getRaydiumQuote (amount : ℚ) (r : QuoteRand) : DexQuote :=
  let basePrice := randomBetween 95 105 r.uPrice
  let feePercentage := randomBetween (25/10000) (3/1000) r.uFee
  let fee := amount * feePercentage
  let amountOut := (amount - fee) * basePrice
  let price := amount / amountOut
  let netPrice := amountOut / amount
  { dex := .RAYDIUM, price := price, fee := fee, netPrice := netPrice,
    amountOut := amountOut,
    liquidity := some (randomBetween 1000000 5000000 r.uLiq) }

/-- `getMeteoraQuote` (`mock-dex-router.service.ts`): base price drawn in
[97,108), fee percentage in [0.003,0.005), liquidity in [5e5,3e6). -/
def getMeteoraQuote (amount : ℚ) (r : QuoteRand) : DexQuote :=
  let basePrice := randomBetween 97 108 r.uPrice
  let feePercentage := randomBetween (3/1000) (5/1000) r.uFee
  let fee := amount * feePercentage
  let amountOut := (amount - fee) * basePrice
  let price := amount / amountOut
  let netPrice := amountOut / amount
  { dex := .METEORA, price := price, fee := fee, netPrice := netPrice,
    amountOut := amountOut,
    liquidity := some (randomBetween 500000 3000000 r.uLiq) }

/-- The selection rationale `getBestQuote` builds (and logs).  The source
renders it as a string; the numeric payload of the rule-1 strings — the
percentage advantage, rendered with `toFixed(2)` — is kept here as the
exact rational so that its presence or absence can be stated. -/
inductive SelectionReason where
  | raydiumBetterNetPrice (priceDiffPct : ℚ)
  | meteoraBetterNetPrice (priceDiffPct : ℚ)
  | equalPricesRaydiumHigherLiquidity
  | equalPricesMeteoraHigherLiquidity
  | equalPricesRaydiumDefault
deriving DecidableEq, Repr

/-- The comparison block of `getBestQuote`
(`mock-dex-router.service.ts`, lines 158–184): strict net-price
comparison first, then liquidity (with `>=` favouring Raydium), then the
Raydium default when liquidity is unavailable (falsy) on either side. -/
def selectBest (raydiumQuote meteoraQuote : DexQuote) : DexQuote × SelectionReason :=
  let raydiumNetPrice := raydiumQuote.netPrice
  let meteoraNetPrice := meteoraQuote.netPrice
  if raydiumNetPrice > meteoraNetPrice then
    (raydiumQuote,
     .raydiumBetterNetPrice ((raydiumNetPrice - meteoraNetPrice) / meteoraNetPrice * 100))
  else if meteoraNetPrice > raydiumNetPrice then
    (meteoraQuote,
     .meteoraBetterNetPrice ((meteoraNetPrice - raydiumNetPrice) / raydiumNetPrice * 100))
  else if optTruthy raydiumQuote.liquidity && optTruthy meteoraQuote.liquidity then
    if raydiumQuote.liquidity.getD 0 ≥ meteoraQuote.liquidity.getD 0 then
      (raydiumQuote, .equalPricesRaydiumHigherLiquidity)
    else
      (meteoraQuote, .equalPricesMeteoraHigherLiquidity)
  else
    (raydiumQuote, .equalPricesRaydiumDefault)

/-- Return value of `getBestQuote`: the winner plus both original quotes.
The selection reason is *not* part of the returned value in the source;
it is only logged. -/
structure BestQuoteResult where
  bestQuote : DexQuote
  raydiumQuote : DexQuote
  meteoraQuote : DexQuote
deriving DecidableEq, Repr

/-- `getBestQuote` (`mock-dex-router.service.ts`): fetch both quotes,
pick the better one, return the winner together with both quotes. -/
def getBestQuote (amount : ℚ) (raydiumRand meteoraRand : QuoteRand) : BestQuoteResult :=
  let raydiumQuote := getRaydiumQuote amount raydiumRand
  let meteoraQuote := getMeteoraQuote amount meteoraRand
  { bestQuote := (selectBest raydiumQuote meteoraQuote).1,
    raydiumQuote := raydiumQuote,
    meteoraQuote := meteoraQuote }

/-- `OrderType` from `types/order.ts`. -/
inductive OrderType where
  | MARKET
  | LIMIT
  | SNIPER
deriving DecidableEq, Repr

/-- `OrderRequest` from `types/order.ts`. -/
structure OrderRequest where
  tokenIn : String
  tokenOut : String
  amount : ℚ
  orderType : OrderType
deriving DecidableEq, Repr

/-- `SwapExecutionResult` from `types/order.ts`. -/
structure SwapExecutionResult where
  success : Bool
  txHash : String
  executedPrice : ℚ
  executedAmount : ℚ
  dex : DexName
  executionTimestamp : ℚ
deriving DecidableEq, Repr

/-- The random draws one `executeSwap` call makes: the execution delay,
the execution price, and the 64 per-character draws of the mock hash. -/
structure SwapRand where
  uDelay : ℚ
  uPrice : ℚ
  hashDraws : List (Fin 16)
deriving DecidableEq, Repr

/-- `generateMockTxHash`: 64 draws of `Math.floor(Math.random()*16)`
indexing into `'0123456789abcdef'`. -/
def generateMockTxHash (draws : List (Fin 16)) : String :=
  ⟨draws.map (fun i => "0123456789abcdef".data.getD i.1 '0')⟩

/-- `executeSwap` (`mock-dex-router.service.ts`, lines 210–240): no
failure branch exists — the function always returns `success := true`,
with `executedPrice` drawn in [0.0095, 0.0105) independently of any
quote (no quote is even in scope) and
`executedAmount = order.amount * executedPrice`. -/
def executeSwap (dex : DexName) (order : OrderRequest) (r : SwapRand) (now : ℚ) :
    SwapExecutionResult :=
  let executionPrice := randomBetween (95/10000) (105/10000) r.uPrice
  let executedAmount := order.amount * executionPrice
  { success := true,
    txHash := generateMockTxHash r.hashDraws,
    executedPrice := executionPrice,
    executedAmount := executedAmount,
    dex := dex,
    executionTimestamp := now }

/-- `OrderStatus` from `types/order.ts`. -/
inductive OrderStatus where
  | pending
  | routing
  | building
  | submitted
  | executing
  | confirmed
  | failed
  | cancelled
deriving DecidableEq, Repr

/-- `RoutingDecision` from `types/order.ts`.  `selectionReason` is the
string actually stored on the order. -/
structure RoutingDecision where
  selectedDex : DexName
  raydiumQuote : DexQuote
  meteoraQuote : DexQuote
  selectionReason : String
  routingTimestamp : ℚ
deriving DecidableEq, Repr

/-- `ActiveOrder` from `types/order.ts` (the second, extended
declaration, which is the one the services use). -/
structure ActiveOrder where
  tokenIn : String
  tokenOut : String
  amount : ℚ
  orderType : OrderType
  orderId : String
  status : OrderStatus
  submittedAt : ℚ
  executedAt : Option ℚ := none
  failedAt : Option ℚ := none
  failureReason : Option String := none
  exchangeId : Option String := none
  executionPrice : Option ℚ := none
  executionAmount : Option ℚ := none
  routingDecision : Option RoutingDecision := none
  txHash : Option String := none
deriving DecidableEq, Repr

/-- The `OrderRequest` part of an `ActiveOrder` (structural subtyping:
`ActiveOrder extends OrderRequest`). -/
def ActiveOrder.toRequest (o : ActiveOrder) : OrderRequest :=
  { tokenIn := o.tokenIn, tokenOut := o.tokenOut, amount := o.amount,
    orderType := o.orderType }

/-- `sub.isPrefixOf l` for character lists, written out so that it can be
unfolded in proofs. -/
def charsPrefixOf : List Char → List Char → Bool
  | [], _ => true
  | _ :: _, [] => false
  | a :: as, b :: bs => a = b && charsPrefixOf as bs

/-- Substring containment on character lists. -/
def charsInfixOf (sub : List Char) : List Char → Bool
  | [] => sub.isEmpty
  | c :: rest => charsPrefixOf sub (c :: rest) || charsInfixOf sub rest

/-- JavaScript `s.includes(sub)`. -/
def strIncludes (s sub : String) : Bool :=
  charsInfixOf sub.data s.data

section Store

/-!
## Order State Store (`order.service.ts`)

The Redis client is modelled as an association list from keys to stored
order snapshots (the JSON round trip of a plain order object is the
identity on its data, so snapshots are kept as `ActiveOrder` values)
plus the `orders:active` set.  TTLs are timing behaviour and are not
modelled.
-/

/-- Redis `SETEX`: overwrite the value under a key. -/
def kvSet (kv : List (String × ActiveOrder)) (k : String) (v : ActiveOrder) :
    List (String × ActiveOrder) :=
  (k, v) :: kv.filter (fun p => p.1 ≠ k)

/-- Redis `SADD` on a set modelled as a duplicate-free list. -/
def saddList (s : List String) (x : String) : List String :=
  if x ∈ s then s else x :: s

/-- Redis `SREM`. -/
def sremList (s : List String) (x : String) : List String :=
  s.filter (fun y => y ≠ x)

/-- First-match association-list lookup (Redis `GET`). -/
def kvGet (kv : List (String × ActiveOrder)) (k : String) : Option ActiveOrder :=
  match kv with
  | [] => none
  | p :: rest => if p.1 = k then some p.2 else kvGet rest k

/-- The modelled Redis state: order snapshots plus the active index. -/
structure RedisState where
  orders : List (String × ActiveOrder)
  active : List String
deriving DecidableEq, Repr

/-- `storeOrderInRedis` (`order.service.ts`, lines 22–33): write the
snapshot under `order:<orderId>` and add the id to `orders:active`. -/
def storeOrderInRedis (order : ActiveOrder) (st : RedisState) : RedisState :=
  { orders := kvSet st.orders ("order:" ++ order.orderId) order,
    active := saddList st.active order.orderId }

/-- `getOrderFromRedis` (`order.service.ts`, lines 81–91). -/
def getOrderFromRedis (orderId : String) (st : RedisState) : Option ActiveOrder :=
  kvGet st.orders ("order:" ++ orderId)

/-- `Partial<ActiveOrder>` as passed to `updateOrderStatusInRedis`:
present fields overwrite, absent fields are kept (`Object.assign`).  The
four immutable request fields are never part of an update object whose
values differ from the stored ones, and are omitted here. -/
structure OrderUpdate where
  status : Option OrderStatus := none
  executedAt : Option ℚ := none
  failedAt : Option ℚ := none
  failureReason : Option String := none
  exchangeId : Option String := none
  executionPrice : Option ℚ := none
  executionAmount : Option ℚ := none
  routingDecision : Option RoutingDecision := none
  txHash : Option String := none
deriving DecidableEq, Repr

/-- `Object.assign(order, updates)`: field-by-field overwrite by the
fields present on the update object. -/
def applyUpdates (o : ActiveOrder) (u : OrderUpdate) : ActiveOrder :=
  { o with
    status := u.status.getD o.status,
    executedAt := u.executedAt <|> o.executedAt,
    failedAt := u.failedAt <|> o.failedAt,
    failureReason := u.failureReason <|> o.failureReason,
    exchangeId := u.exchangeId <|> o.exchangeId,
    executionPrice := u.executionPrice <|> o.executionPrice,
    executionAmount := u.executionAmount <|> o.executionAmount,
    routingDecision := u.routingDecision <|> o.routingDecision,
    txHash := u.txHash <|> o.txHash }

/-- `updateOrderStatusInRedis` (`order.service.ts`, lines 38–76): no-op
with a warning when the key is absent; otherwise set the status, merge
the partial update, set `executedAt`/`failedAt` on first (falsy) entry
into `confirmed`/`failed`, rewrite the snapshot, and drop the id from
the active index when the new status is terminal. -/
def updateOrderStatusInRedis (orderId : String) (status : OrderStatus)
    (updates : Option OrderUpdate) (now : ℚ) (st : RedisState) : RedisState :=
  match kvGet st.orders ("order:" ++ orderId) with
  | none => st
  | some existing =>
    let order := { existing with status := status }
    let order := applyUpdates order (updates.getD {})
    let order :=
      if status = .confirmed ∧ optTruthy order.executedAt = false then
        { order with executedAt := some now }
      else if status = .failed ∧ optTruthy order.failedAt = false then
        { order with failedAt := some now }
      else order
    { orders := kvSet st.orders ("order:" ++ orderId) order,
      active :=
        if status = .confirmed ∨ status = .failed ∨ status = .cancelled then
          sremList st.active orderId
        else st.active }

end Store

section Worker

/-!
## Order Worker (`worker.service.ts`) and queue (`queue.service.ts`)

The worker body is an async function over awaited effects.  It is
translated into a pure function from an `AttemptEnv` — which fixes, per
call site, whether the awaited effect succeeds or rejects and with what
value — to the trace of the attempt (status emissions, ephemeral-store
calls, durable-store calls, in order) and the attempt's outcome: the
value returned to BullMQ, or the exception re-thrown to it (which is
what schedules a retry).
-/

/-- `backoff` options from `createOrderQueue` (`queue.service.ts`). -/
structure BackoffOptions where
  type : String
  delay : ℚ
deriving DecidableEq, Repr

/-- `defaultJobOptions` of the order queue (`queue.service.ts`,
lines 29–42): 3 attempts, exponential back-off from a 2000 ms base. -/
structure JobOptions where
  attempts : Nat
  backoff : BackoffOptions
deriving DecidableEq, Repr

/-- The `defaultJobOptions` value passed to the `Queue` constructor. -/
def orderQueueDefaultJobOptions : JobOptions :=
  { attempts := 3, backoff := { type := "exponential", delay := 2000 } }

/-- `job.opts.attempts || 3` in the worker body (`||` treats both
`undefined` and `0` as absent). -/
def workerMaxAttempts : Option Nat → Nat
  | none => 3
  | some 0 => 3
  | some (n + 1) => n + 1

/-- A JavaScript error as the worker observes it: the `TransientError`
subclass or any other error, each carrying its message. -/
inductive WorkerError where
  | transient (message : String)
  | plain (message : String)
deriving DecidableEq, Repr

/-- `error.message`. -/
def errMessage : WorkerError → String
  | .transient m => m
  | .plain m => m

/-- `errorMessage.includes('timeout') || errorMessage.includes('network')`
— the message-sniffing test that decides whether a caught error is
wrapped in `TransientError`. -/
def isNetworkLike (msg : String) : Bool :=
  strIncludes msg "timeout" || strIncludes msg "network"

/-- One status emission as recorded by `emitStatus`: the status, the
human-readable message, and whether the underlying WebSocket emit
succeeded (`emitStatus` catches and swallows its failure, so this flag
never influences control flow). -/
structure Emission where
  status : OrderStatus
  message : String
  delivered : Bool
deriving DecidableEq, Repr

/-- The effect environment of one attempt.  `Except.error msg` means the
awaited call rejected with an error whose message is `msg`; for the call
sites whose rejection is caught and only logged, a `Bool` (`true` =
rejects) suffices because the message is never observed. -/
structure AttemptEnv where
  quoteOutcome : Except String BestQuoteResult
  redisRoutingFails : Bool := false
  redisDecisionFails : Option String := none
  redisBuildingFails : Bool := false
  swapOutcome : Except String SwapExecutionResult
  redisSubmittedFails : Bool := false
  redisConfirmedFails : Option String := none
  postgresConfirmFails : Option String := none
  redisFailedWriteFails : Bool := false
  postgresFailedWriteFails : Bool := false
  emitFails : OrderStatus → Bool := fun _ => false
  now : ℚ := 0

/-- The trace of one attempt: emissions, `updateOrderStatusInRedis`
calls (status argument, and whether the call succeeded), and
`storeOrderInPostgres` calls (order argument, and whether the call
succeeded), each in program order. -/
structure AttemptTrace where
  emissions : List Emission := []
  redisCalls : List (OrderStatus × Bool) := []
  postgresCalls : List (ActiveOrder × Bool) := []
deriving Repr

/-- What one attempt hands back to BullMQ: the success object, the
failure object returned without re-throwing on the final attempt, or the
re-thrown error (which makes the broker schedule a retry). -/
inductive AttemptResult where
  | completed (txHash : String)
  | failedFinal (errorMessage : String)
  | retryScheduled (err : WorkerError)
deriving DecidableEq, Repr

/-- `true` exactly on the success return value. -/
def AttemptResult.isCompleted : AttemptResult → Bool
  | .completed _ => true
  | _ => false

/-- `true` exactly when the attempt re-threw its error, i.e. when the
broker schedules a retry. -/
def AttemptResult.isRetry : AttemptResult → Bool
  | .retryScheduled _ => true
  | _ => false

/-- `emitStatus` (`worker.service.ts`, lines 30–45): build the status
update, emit it, catch and log any failure. -/
def emitRecord (env : AttemptEnv) (tr : AttemptTrace) (status : OrderStatus)
    (message : String) : AttemptTrace :=
  { tr with emissions := tr.emissions ++ [⟨status, message, !env.emitFails status⟩] }

/-- Record an `updateOrderStatusInRedis` call. -/
def redisRecord (tr : AttemptTrace) (status : OrderStatus) (ok : Bool) : AttemptTrace :=
  { tr with redisCalls := tr.redisCalls ++ [(status, ok)] }

/-- Record a `storeOrderInPostgres` call. -/
def postgresRecord (tr : AttemptTrace) (order : ActiveOrder) (ok : Bool) : AttemptTrace :=
  { tr with postgresCalls := tr.postgresCalls ++ [(order, ok)] }

/-- The worker's `routingDecision` object (`worker.service.ts`,
lines 158–164).  Its `selectionReason` is the fixed template
`` `${bestQuote.dex} selected for best execution price` `` — not the
rule-describing reason `getBestQuote` computed and logged. -/
def mkRoutingDecision (quoteResult : BestQuoteResult) (now : ℚ) : RoutingDecision :=
  { selectedDex := quoteResult.bestQuote.dex,
    raydiumQuote := quoteResult.raydiumQuote,
    meteoraQuote := quoteResult.meteoraQuote,
    selectionReason := dexNameStr quoteResult.bestQuote.dex ++ " selected for best execution price",
    routingTimestamp := now }

/-- `handleOrderFailure` (`worker.service.ts`, lines 50–112) followed by
the tail of the worker's outer `catch` (lines 273–291): emit the
`failed` status, write the failed snapshot to Redis (failure logged and
swallowed), write it to PostgreSQL only on the final attempt (failure
logged and swallowed), then return the failure object on the final
attempt or re-throw the error — scheduling a retry — otherwise. -/
def finishFailure (order : ActiveOrder) (attemptNumber maxAttempts : Nat)
    (env : AttemptEnv) (tr : AttemptTrace) (err : WorkerError) :
    AttemptTrace × AttemptResult :=
  let errorMessage := errMessage err
  let isFinalAttempt : Bool := decide (attemptNumber ≥ maxAttempts)
  let tr := emitRecord env tr .failed
    (if isFinalAttempt then
      s!"Order execution failed after {maxAttempts} attempts: {errorMessage}"
     else
      s!"Order execution failed (attempt {attemptNumber}/{maxAttempts}): {errorMessage}. Retrying...")
  let tr := redisRecord tr .failed (!env.redisFailedWriteFails)
  let tr :=
    if isFinalAttempt then
      postgresRecord tr
        { order with
          status := .failed,
          failedAt := some env.now,
          failureReason := some s!"Failed after {maxAttempts} attempts: {errorMessage}" }
        (!env.postgresFailedWriteFails)
    else tr
  if isFinalAttempt then (tr, .failedFinal errorMessage)
  else (tr, .retryScheduled err)

/-- The worker processor body (`worker.service.ts`, lines 126–291),
one attempt: the five transition steps with their per-step `try`/`catch`
structure, the outer `catch` delegating to `handleOrderFailure`, and the
final-attempt / re-throw split. -/
def processAttempt (order : ActiveOrder) (attemptNumber maxAttempts : Nat)
    (env : AttemptEnv) : AttemptTrace × AttemptResult :=
  -- step 1: pending -> routing (status failures caught and logged)
  let tr := emitRecord env {} .routing "Fetching quotes from DEXs..."
  let tr := redisRecord tr .routing (!env.redisRoutingFails)
  -- step 2: fetch best quote, attach routing decision (escalating catch)
  match env.quoteOutcome with
  | .error msg =>
      let err := if isNetworkLike msg then
          WorkerError.transient ("Network timeout during quote fetching: " ++ msg)
        else WorkerError.plain msg
      finishFailure order attemptNumber maxAttempts env tr err
  | .ok quoteResult =>
  let bestQuote := quoteResult.bestQuote
  let routingDecision := mkRoutingDecision quoteResult env.now
  match env.redisDecisionFails with
  | some rmsg =>
      let tr := redisRecord tr .routing false
      let err := if isNetworkLike rmsg then
          WorkerError.transient ("Network timeout during quote fetching: " ++ rmsg)
        else WorkerError.plain rmsg
      finishFailure order attemptNumber maxAttempts env tr err
  | none =>
  let tr := redisRecord tr .routing true
  -- step 3: routing -> building (status failures caught and logged)
  let tr := emitRecord env tr .building "Building transaction..."
  let tr := redisRecord tr .building (!env.redisBuildingFails)
  -- step 4: execute swap (escalating catch)
  match env.swapOutcome with
  | .error msg =>
      let err := if isNetworkLike msg then
          WorkerError.transient ("Network timeout during swap execution: " ++ msg)
        else WorkerError.plain msg
      finishFailure order attemptNumber maxAttempts env tr err
  | .ok swapResult =>
  -- step 5: building -> submitted (status failures caught and logged)
  let tr := emitRecord env tr .submitted "Transaction submitted to blockchain"
  let tr := redisRecord tr .submitted (!env.redisSubmittedFails)
  -- step 6: submitted -> confirmed (emission failure caught and logged)
  let tr := emitRecord env tr .confirmed "Order executed successfully"
  let finalOrder : ActiveOrder :=
    { order with
      status := .confirmed,
      executedAt := some env.now,
      exchangeId := some (dexNameStr bestQuote.dex),
      executionPrice := some swapResult.executedPrice,
      executionAmount := some swapResult.executedAmount,
      routingDecision := some routingDecision,
      txHash := some swapResult.txHash }
  -- final Redis persistence: failure is critical, re-thrown
  match env.redisConfirmedFails with
  | some rmsg =>
      let tr := redisRecord tr .confirmed false
      finishFailure order attemptNumber maxAttempts env tr (WorkerError.plain rmsg)
  | none =>
  let tr := redisRecord tr .confirmed true
  -- final PostgreSQL persistence: failure is critical, re-thrown
  match env.postgresConfirmFails with
  | some pmsg =>
      let tr := postgresRecord tr finalOrder false
      finishFailure order attemptNumber maxAttempts env tr (WorkerError.plain pmsg)
  | none =>
  let tr := postgresRecord tr finalOrder true
  (tr, .completed swapResult.txHash)

/-- The broker's retry loop: attempt `n` runs against the `n`-th
environment; a re-thrown error schedules the next attempt, any returned
value ends the job.  Yields the per-attempt traces and results in
order. -/
def runAttemptsFrom (order : ActiveOrder) (maxAttempts : Nat) :
    Nat → List AttemptEnv → List (AttemptTrace × AttemptResult)
  | _, [] => []
  | n, env :: rest =>
    let r := processAttempt order n maxAttempts env
    match r.2 with
    | .retryScheduled _ => r :: runAttemptsFrom order maxAttempts (n + 1) rest
    | _ => [r]

/-- A whole order lifecycle: attempts start at attempt number 1. -/
def runLifecycle (order : ActiveOrder) (maxAttempts : Nat)
    (envs : List AttemptEnv) : List (AttemptTrace × AttemptResult) :=
  runAttemptsFrom order maxAttempts 1 envs

/-- All statuses emitted over a lifecycle, in order. -/
def lifecycleEmittedStatuses (order : ActiveOrder) (maxAttempts : Nat)
    (envs : List AttemptEnv) : List OrderStatus :=
  ((runLifecycle order maxAttempts envs).map
    (fun r => r.1.emissions.map (fun e => e.status))).flatten

end Worker

section Broadcaster

/-!
## Notification Broadcaster (`websocket.service.ts`)

The two `Map`s of `WebSocketService` are modelled as association lists
with unique keys; the `Set` of connection ids per order as a
duplicate-free list.  A channel is described by its owning order id, its
`readyState === OPEN` flag, and whether `send` throws on it.  The
serialized payload `JSON.stringify(statusUpdate)` is computed once
before the send loop, so one publish sends one fixed value; the payload
type is kept abstract and the send trace records which connection
received that value.
-/

/-- One registered WebSocket connection (`WebSocketConnection` plus the
behaviour of its socket). -/
structure WSConn where
  orderId : String
  isOpen : Bool
  sendFails : Bool
deriving DecidableEq, Repr

/-- The two registries of `WebSocketService`: `connections`
(connectionId → connection) and `orderConnections` (orderId → set of
connectionIds). -/
structure WSState where
  connections : List (String × WSConn)
  orderConnections : List (String × List String)
deriving DecidableEq, Repr

/-- `Map.get`. -/
def assocGet {α : Type} (l : List (String × α)) (k : String) : Option α :=
  match l with
  | [] => none
  | p :: rest => if p.1 = k then some p.2 else assocGet rest k

/-- `Map.delete`. -/
def assocDelete {α : Type} (l : List (String × α)) (k : String) : List (String × α) :=
  l.filter (fun p => p.1 ≠ k)

/-- In-place replacement of the value stored under a key. -/
def assocReplace {α : Type} (l : List (String × α)) (k : String) (v : α) :
    List (String × α) :=
  l.map (fun p => if p.1 = k then (k, v) else p)

/-- `unregisterConnection` (`websocket.service.ts`, lines 78–97): drop
the connection from `connections`, drop its id from the owning order's
set, and drop the order's entry entirely when its set empties. -/
def unregisterConnection (st : WSState) (connectionId : String) : WSState :=
  match assocGet st.connections connectionId with
  | none => st
  | some conn =>
    let connections := assocDelete st.connections connectionId
    let orderConnections :=
      match assocGet st.orderConnections conn.orderId with
      | none => st.orderConnections
      | some set =>
        let set := set.filter (fun c => c ≠ connectionId)
        if set.isEmpty then assocDelete st.orderConnections conn.orderId
        else assocReplace st.orderConnections conn.orderId set
    { connections := connections, orderConnections := orderConnections }

/-- The body of the `connectionIds.forEach` loop of `emitStatusUpdate`,
iterated over the subscriber set: a stale id (absent from
`connections`) is deleted from the order's set; an open socket is sent
the message (counted as delivered when `send` does not throw, and
unregistered when it does); a non-open socket is unregistered.  Returns
the final registry state and the ids that received the message. -/
def emitLoop {α : Type} (orderId : String) (ev : α) :
    WSState → List String → WSState × List (String × α)
  | st, [] => (st, [])
  | st, connectionId :: rest =>
    match assocGet st.connections connectionId with
    | none =>
      let st :=
        { st with
          orderConnections :=
            assocReplace st.orderConnections orderId
              (((assocGet st.orderConnections orderId).getD []).filter
                (fun c => c ≠ connectionId)) }
      emitLoop orderId ev st rest
    | some conn =>
      if conn.isOpen then
        if conn.sendFails then
          emitLoop orderId ev (unregisterConnection st connectionId) rest
        else
          let r := emitLoop orderId ev st rest
          (r.1, (connectionId, ev) :: r.2)
      else
        emitLoop orderId ev (unregisterConnection st connectionId) rest

/-- `emitStatusUpdate` (`websocket.service.ts`, lines 105–144): look up
the order's subscriber set; with no (or no live) subscribers this is a
warning-level no-op; otherwise serialize the event once and run the send
loop over the current subscriber set. -/
def emitStatusUpdate {α : Type} (st : WSState) (orderId : String) (ev : α) :
    WSState × List (String × α) :=
  match assocGet st.orderConnections orderId with
  | none => (st, [])
  | some connectionIds =>
    if connectionIds.isEmpty then (st, [])
    else emitLoop orderId ev st connectionIds

/-- A subscriber is live for a publish when its connection is registered,
its socket is open, and `send` does not throw on it. -/
def isLive (st : WSState) (connectionId : String) : Bool :=
  match assocGet st.connections connectionId with
  | none => false
  | some conn => conn.isOpen && !conn.sendFails

end Broadcaster

section ClaimPredicates

/-- Terminal statuses (`confirmed`, `failed`, `cancelled`). -/
def isTerminalStatus : OrderStatus → Bool
  | .confirmed => true
  | .failed => true
  | .cancelled => true
  | _ => false

/-- Position of a status in the specified transition graph
`pending → routing → building → submitted → confirmed`, with the
terminal statuses sharing the top rank (a walk is supposed to contain at
most one terminal state, so their relative order never matters). -/
def claimStatusRank : OrderStatus → Nat
  | .pending => 0
  | .routing => 1
  | .building => 2
  | .submitted => 3
  | .executing => 4
  | .confirmed => 5
  | .failed => 5
  | .cancelled => 5

/-- The specification's lifecycle invariant: a strictly monotonic walk
along the transition graph that never revisits a state, with exactly one
terminal status, occurring at the end. -/
def specMonotonicWalk (l : List OrderStatus) : Prop :=
  l.Nodup ∧
  l.Chain' (fun a b => claimStatusRank a < claimStatusRank b) ∧
  l.countP (fun s => isTerminalStatus s) = 1 ∧
  (∀ s ∈ l.dropLast, isTerminalStatus s = false)

instance (l : List OrderStatus) : Decidable (specMonotonicWalk l) := by
  unfold specMonotonicWalk; infer_instance

/-- The environment `env` with all the logged-and-swallowed failure
sites overridden: the routing/building/submitted/failed-snapshot
ephemeral writes and the WebSocket emit behaviour. -/
def overrideSwallowedSites (env : AttemptEnv) (b1 b2 b3 b4 : Bool)
    (f : OrderStatus → Bool) : AttemptEnv :=
  { env with
    redisRoutingFails := b1,
    redisBuildingFails := b2,
    redisSubmittedFails := b3,
    redisFailedWriteFails := b4,
    emitFails := f }

end ClaimPredicates

section Fixtures

/-- A concrete submitted order (`createOrderFromRequest` applied to the
README's example request). -/
def testOrder : ActiveOrder :=
  { tokenIn := "SOL", tokenOut := "USDC", amount := 10, orderType := .MARKET,
    orderId := "order_1", status := .pending, submittedAt := 0 }

/-- A concrete quote fan-out result (mid-range draws for both venues). -/
def okQuotes : BestQuoteResult :=
  getBestQuote 10 ⟨1/2, 1/2, 1/2⟩ ⟨1/2, 1/2, 1/2⟩

/-- A concrete swap execution result. -/
def okSwap : SwapExecutionResult :=
  executeSwap .METEORA testOrder.toRequest ⟨0, 1/2, []⟩ 0

/-- An attempt during which every awaited effect succeeds. -/
def envAllOk : AttemptEnv :=
  { quoteOutcome := .ok okQuotes, swapOutcome := .ok okSwap }

/-- An attempt whose quote fetch rejects with a permanent
(non-network-like) error. -/
def envPermanent : AttemptEnv :=
  { quoteOutcome := .error "invalid token pair", swapOutcome := .error "unreachable" }

/-- An attempt whose quote fetch rejects with a transient
(network-timeout-like) error. -/
def envTransient : AttemptEnv :=
  { quoteOutcome := .error "network timeout", swapOutcome := .error "unreachable" }

/-- An attempt during which only the final (confirmed) ephemeral-store
write rejects. -/
def envRedisConfirm : AttemptEnv :=
  { quoteOutcome := .ok okQuotes, swapOutcome := .ok okSwap,
    redisConfirmedFails := some "redis write failed" }

/-- A registry with three subscribers on one order, the second of whose
sockets is no longer open. -/
def wsThreeSubs : WSState :=
  { connections :=
      [("conn_1", ⟨"order_1", true, false⟩),
       ("conn_2", ⟨"order_1", false, false⟩),
       ("conn_3", ⟨"order_1", true, false⟩)],
    orderConnections := [("order_1", ["conn_1", "conn_2", "conn_3"])] }

end Fixtures

/-! ## Routing Selector lemmas -/

theorem selectBest_eq_or (r m : DexQuote) :
    (selectBest r m).1 = r ∨ (selectBest r m).1 = m := by
  unfold selectBest
  dsimp only
  split_ifs <;> simp

theorem selectBest_best_ge (r m : DexQuote) :
    r.netPrice ≤ (selectBest r m).1.netPrice ∧
    m.netPrice ≤ (selectBest r m).1.netPrice := by
  unfold selectBest
  dsimp only
  split_ifs with h1 h2 <;> constructor <;> simp <;> linarith

theorem selectBest_rule1_raydium (r m : DexQuote) (h : r.netPrice > m.netPrice) :
    (selectBest r m).1 = r := by
  unfold selectBest
  dsimp only
  split_ifs with h1 h2 <;> first | rfl | linarith

theorem selectBest_rule1_meteora (r m : DexQuote) (h : m.netPrice > r.netPrice) :
    (selectBest r m).1 = m := by
  unfold selectBest
  dsimp only
  split_ifs with h1 h2 <;> first | rfl | linarith

theorem selectBest_rule2 (r m : DexQuote) (heq : r.netPrice = m.netPrice)
    (hliq : (optTruthy r.liquidity && optTruthy m.liquidity) = true) :
    (r.liquidity.getD 0 ≥ m.liquidity.getD 0 → (selectBest r m).1 = r) ∧
    (m.liquidity.getD 0 > r.liquidity.getD 0 → (selectBest r m).1 = m) := by
  unfold selectBest
  dsimp only
  split_ifs with h1 h2 h3 h4 <;>
    first
    | linarith
    | (constructor <;> intro h <;> first | rfl | linarith)

theorem selectBest_rule3 (r m : DexQuote) (heq : r.netPrice = m.netPrice)
    (hliq : (optTruthy r.liquidity && optTruthy m.liquidity) = false) :
    (selectBest r m).1 = r := by
  unfold selectBest
  dsimp only
  split_ifs with h1 h2 h3 <;> first | rfl | linarith | simp_all

/-- C1: `getBestQuote` with any positive amount returns exactly the two
venue quotes (one per venue) plus one best quote that is one of them,
with the best net price at least the other's, chosen by strict rule
order: strictly higher net price wins; on exactly equal net prices
higher advertised liquidity wins; on equal or unavailable liquidity
Raydium is the fixed default.  Both original quotes are retained in the
returned value. -/
theorem getBestQuote_two_quotes_one_best (amount : ℚ) (rr mr : QuoteRand)
    (hamount : 0 < amount) :
    (getBestQuote amount rr mr).raydiumQuote.dex = .RAYDIUM ∧
    (getBestQuote amount rr mr).meteoraQuote.dex = .METEORA ∧
    (getBestQuote amount rr mr).raydiumQuote = getRaydiumQuote amount rr ∧
    (getBestQuote amount rr mr).meteoraQuote = getMeteoraQuote amount mr ∧
    ((getBestQuote amount rr mr).bestQuote = (getBestQuote amount rr mr).raydiumQuote ∨
     (getBestQuote amount rr mr).bestQuote = (getBestQuote amount rr mr).meteoraQuote) ∧
    (getBestQuote amount rr mr).raydiumQuote.netPrice
      ≤ (getBestQuote amount rr mr).bestQuote.netPrice ∧
    (getBestQuote amount rr mr).meteoraQuote.netPrice
      ≤ (getBestQuote amount rr mr).bestQuote.netPrice ∧
    ((getBestQuote amount rr mr).raydiumQuote.netPrice
        > (getBestQuote amount rr mr).meteoraQuote.netPrice →
      (getBestQuote amount rr mr).bestQuote = (getBestQuote amount rr mr).raydiumQuote) ∧
    ((getBestQuote amount rr mr).meteoraQuote.netPrice
        > (getBestQuote amount rr mr).raydiumQuote.netPrice →
      (getBestQuote amount rr mr).bestQuote = (getBestQuote amount rr mr).meteoraQuote) ∧
    ((getBestQuote amount rr mr).raydiumQuote.netPrice
        = (getBestQuote amount rr mr).meteoraQuote.netPrice →
      ((optTruthy (getBestQuote amount rr mr).raydiumQuote.liquidity &&
          optTruthy (getBestQuote amount rr mr).meteoraQuote.liquidity) = true →
        ((getBestQuote amount rr mr).raydiumQuote.liquidity.getD 0
            ≥ (getBestQuote amount rr mr).meteoraQuote.liquidity.getD 0 →
          (getBestQuote amount rr mr).bestQuote = (getBestQuote amount rr mr).raydiumQuote) ∧
        ((getBestQuote amount rr mr).meteoraQuote.liquidity.getD 0
            > (getBestQuote amount rr mr).raydiumQuote.liquidity.getD 0 →
          (getBestQuote amount rr mr).bestQuote = (getBestQuote amount rr mr).meteoraQuote)) ∧
      ((optTruthy (getBestQuote amount rr mr).raydiumQuote.liquidity &&
          optTruthy (getBestQuote amount rr mr).meteoraQuote.liquidity) = false →
        (getBestQuote amount rr mr).bestQuote = (getBestQuote amount rr mr).raydiumQuote)) := by
  have hb : (getBestQuote amount rr mr).bestQuote
      = (selectBest (getRaydiumQuote amount rr) (getMeteoraQuote amount mr)).1 := rfl
  have hr : (getBestQuote amount rr mr).raydiumQuote = getRaydiumQuote amount rr := rfl
  have hm : (getBestQuote amount rr mr).meteoraQuote = getMeteoraQuote amount mr := rfl
  rw [hb, hr, hm]
  refine ⟨rfl, rfl, rfl, rfl,
    selectBest_eq_or _ _,
    (selectBest_best_ge _ _).1, (selectBest_best_ge _ _).2,
    fun h => selectBest_rule1_raydium _ _ h,
    fun h => selectBest_rule1_meteora _ _ h,
    fun heq => ⟨fun hliq => selectBest_rule2 _ _ heq hliq,
                fun hliq => selectBest_rule3 _ _ heq hliq⟩⟩

/-- Witness for `getBestQuote_two_quotes_one_best` at
`amount = 10` with concrete mid-range draws. -/
theorem getBestQuote_two_quotes_one_best_witness :
    (getBestQuote 10 ⟨1/2, 1/2, 1/2⟩ ⟨1/2, 1/2, 1/2⟩).raydiumQuote.dex = .RAYDIUM ∧
    ((getBestQuote 10 ⟨1/2, 1/2, 1/2⟩ ⟨1/2, 1/2, 1/2⟩).bestQuote
        = (getBestQuote 10 ⟨1/2, 1/2, 1/2⟩ ⟨1/2, 1/2, 1/2⟩).raydiumQuote ∨
     (getBestQuote 10 ⟨1/2, 1/2, 1/2⟩ ⟨1/2, 1/2, 1/2⟩).bestQuote
        = (getBestQuote 10 ⟨1/2, 1/2, 1/2⟩ ⟨1/2, 1/2, 1/2⟩).meteoraQuote) :=
  ⟨(getBestQuote_two_quotes_one_best 10 ⟨1/2, 1/2, 1/2⟩ ⟨1/2, 1/2, 1/2⟩ (by norm_num)).1,
   (getBestQuote_two_quotes_one_best 10 ⟨1/2, 1/2, 1/2⟩ ⟨1/2, 1/2, 1/2⟩ (by norm_num)).2.2.2.2.1⟩

/-! ## Execution Simulator -/

/-- C10: `executeSwap` always returns `success = true` (the function has
no failure branch and never throws), with
`executedAmount = order.amount * executedPrice` and `executedPrice`
drawn from the interval [0.0095, 0.0105] — exactly
`randomBetween 0.0095 0.0105 u`, a function of the draw alone,
independent of the quoted price and quoted `amountOut` (no quote is in
scope in the simulator). -/
theorem executeSwap_success_bounds (dex : DexName) (order : OrderRequest)
    (r : SwapRand) (now : ℚ) (h0 : 0 ≤ r.uPrice) (h1 : r.uPrice < 1) :
    (executeSwap dex order r now).success = true ∧
    (executeSwap dex order r now).executedAmount
      = order.amount * (executeSwap dex order r now).executedPrice ∧
    (executeSwap dex order r now).executedPrice
      = randomBetween (95/10000) (105/10000) r.uPrice ∧
    95/10000 ≤ (executeSwap dex order r now).executedPrice ∧
    (executeSwap dex order r now).executedPrice ≤ 105/10000 := by
  refine ⟨rfl, rfl, rfl, ?_, ?_⟩ <;>
  · show _
    unfold executeSwap randomBetween
    dsimp only
    nlinarith

/-- Witness for `executeSwap_success_bounds` at the mid-range draw. -/
theorem executeSwap_success_bounds_witness :
    (executeSwap .METEORA testOrder.toRequest ⟨0, 1/2, []⟩ 0).success = true ∧
    (executeSwap .METEORA testOrder.toRequest ⟨0, 1/2, []⟩ 0).executedAmount
      = testOrder.toRequest.amount
          * (executeSwap .METEORA testOrder.toRequest ⟨0, 1/2, []⟩ 0).executedPrice :=
  ⟨(executeSwap_success_bounds .METEORA testOrder.toRequest ⟨0, 1/2, []⟩ 0
      (by norm_num) (by norm_num)).1,
   (executeSwap_success_bounds .METEORA testOrder.toRequest ⟨0, 1/2, []⟩ 0
      (by norm_num) (by norm_num)).2.1⟩

/-! ## Routing rationale (C8) -/

/-- C8 counterexample: even when rule 1 fires, the rationale recorded in
the `RoutingDecision` the worker attaches to the order is the fixed
string "RAYDIUM selected for best execution price" — identical for two
quote pairs with different percentage advantages (for which the router's
own, merely logged, reasons differ), and containing no digit at all, so
it cannot describe a percentage advantage. -/
theorem routing_rationale_cex :
    (getBestQuote 10 ⟨9/10, 0, 1/2⟩ ⟨0, 0, 1/2⟩).raydiumQuote.netPrice
      > (getBestQuote 10 ⟨9/10, 0, 1/2⟩ ⟨0, 0, 1/2⟩).meteoraQuote.netPrice ∧
    (getBestQuote 10 ⟨1/2, 0, 1/2⟩ ⟨0, 0, 1/2⟩).raydiumQuote.netPrice
      > (getBestQuote 10 ⟨1/2, 0, 1/2⟩ ⟨0, 0, 1/2⟩).meteoraQuote.netPrice ∧
    (selectBest (getRaydiumQuote 10 ⟨9/10, 0, 1/2⟩) (getMeteoraQuote 10 ⟨0, 0, 1/2⟩)).2
      ≠ (selectBest (getRaydiumQuote 10 ⟨1/2, 0, 1/2⟩) (getMeteoraQuote 10 ⟨0, 0, 1/2⟩)).2 ∧
    (mkRoutingDecision (getBestQuote 10 ⟨9/10, 0, 1/2⟩ ⟨0, 0, 1/2⟩) 0).selectionReason
      = (mkRoutingDecision (getBestQuote 10 ⟨1/2, 0, 1/2⟩ ⟨0, 0, 1/2⟩) 0).selectionReason ∧
    (mkRoutingDecision (getBestQuote 10 ⟨9/10, 0, 1/2⟩ ⟨0, 0, 1/2⟩) 0).selectionReason.data.all
      (fun c => !c.isDigit) = true := by
  have hA : (getRaydiumQuote 10 ⟨9/10, 0, 1/2⟩).netPrice
      > (getMeteoraQuote 10 ⟨0, 0, 1/2⟩).netPrice := by
    norm_num [getRaydiumQuote, getMeteoraQuote, randomBetween]
  have hB : (getRaydiumQuote 10 ⟨1/2, 0, 1/2⟩).netPrice
      > (getMeteoraQuote 10 ⟨0, 0, 1/2⟩).netPrice := by
    norm_num [getRaydiumQuote, getMeteoraQuote, randomBetween]
  have e1 : (selectBest (getRaydiumQuote 10 ⟨9/10, 0, 1/2⟩) (getMeteoraQuote 10 ⟨0, 0, 1/2⟩)).2
      = .raydiumBetterNetPrice
          (((getRaydiumQuote 10 ⟨9/10, 0, 1/2⟩).netPrice
              - (getMeteoraQuote 10 ⟨0, 0, 1/2⟩).netPrice)
            / (getMeteoraQuote 10 ⟨0, 0, 1/2⟩).netPrice * 100) := by
    unfold selectBest
    dsimp only
    rw [if_pos hA]
  have e2 : (selectBest (getRaydiumQuote 10 ⟨1/2, 0, 1/2⟩) (getMeteoraQuote 10 ⟨0, 0, 1/2⟩)).2
      = .raydiumBetterNetPrice
          (((getRaydiumQuote 10 ⟨1/2, 0, 1/2⟩).netPrice
              - (getMeteoraQuote 10 ⟨0, 0, 1/2⟩).netPrice)
            / (getMeteoraQuote 10 ⟨0, 0, 1/2⟩).netPrice * 100) := by
    unfold selectBest
    dsimp only
    rw [if_pos hB]
  have b1 : (getBestQuote 10 ⟨9/10, 0, 1/2⟩ ⟨0, 0, 1/2⟩).bestQuote
      = getRaydiumQuote 10 ⟨9/10, 0, 1/2⟩ :=
    selectBest_rule1_raydium _ _ hA
  have b2 : (getBestQuote 10 ⟨1/2, 0, 1/2⟩ ⟨0, 0, 1/2⟩).bestQuote
      = getRaydiumQuote 10 ⟨1/2, 0, 1/2⟩ :=
    selectBest_rule1_raydium _ _ hB
  have r1 : (mkRoutingDecision (getBestQuote 10 ⟨9/10, 0, 1/2⟩ ⟨0, 0, 1/2⟩) 0).selectionReason
      = "RAYDIUM selected for best execution price" := by
    show dexNameStr (getBestQuote 10 ⟨9/10, 0, 1/2⟩ ⟨0, 0, 1/2⟩).bestQuote.dex
        ++ " selected for best execution price" = _
    rw [b1]
    decide
  have r2 : (mkRoutingDecision (getBestQuote 10 ⟨1/2, 0, 1/2⟩ ⟨0, 0, 1/2⟩) 0).selectionReason
      = "RAYDIUM selected for best execution price" := by
    show dexNameStr (getBestQuote 10 ⟨1/2, 0, 1/2⟩ ⟨0, 0, 1/2⟩).bestQuote.dex
        ++ " selected for best execution price" = _
    rw [b2]
    decide
  refine ⟨hA, hB, ?_, by rw [r1, r2], by rw [r1]; decide⟩
  rw [e1, e2]
  simp only [ne_eq, SelectionReason.raydiumBetterNetPrice.injEq]
  norm_num [getRaydiumQuote, getMeteoraQuote, randomBetween]

/-- C8 amended: when rule 1 fires for Raydium, `getBestQuote` computes
(and logs) a rationale naming the rule and the exact percentage
advantage, but the `RoutingDecision` the worker attaches records only
the fixed, venue-naming rationale
`` `${bestQuote.dex} selected for best execution price` ``. -/
theorem routing_rationale_recorded_fixed (qr : BestQuoteResult) (now : ℚ)
    (h : qr.raydiumQuote.netPrice > qr.meteoraQuote.netPrice) :
    (selectBest qr.raydiumQuote qr.meteoraQuote).2
      = .raydiumBetterNetPrice
          ((qr.raydiumQuote.netPrice - qr.meteoraQuote.netPrice)
            / qr.meteoraQuote.netPrice * 100) ∧
    (mkRoutingDecision qr now).selectionReason
      = dexNameStr qr.bestQuote.dex ++ " selected for best execution price" := by
  constructor
  · unfold selectBest
    dsimp only
    rw [if_pos h]
  · rfl

/-- Witness for `routing_rationale_recorded_fixed` on a concrete
rule-1 quote pair. -/
theorem routing_rationale_recorded_fixed_witness :
    (selectBest (getBestQuote 10 ⟨9/10, 0, 1/2⟩ ⟨0, 0, 1/2⟩).raydiumQuote
        (getBestQuote 10 ⟨9/10, 0, 1/2⟩ ⟨0, 0, 1/2⟩).meteoraQuote).2
      = .raydiumBetterNetPrice
          (((getBestQuote 10 ⟨9/10, 0, 1/2⟩ ⟨0, 0, 1/2⟩).raydiumQuote.netPrice
              - (getBestQuote 10 ⟨9/10, 0, 1/2⟩ ⟨0, 0, 1/2⟩).meteoraQuote.netPrice)
            / (getBestQuote 10 ⟨9/10, 0, 1/2⟩ ⟨0, 0, 1/2⟩).meteoraQuote.netPrice * 100) :=
  (routing_rationale_recorded_fixed (getBestQuote 10 ⟨9/10, 0, 1/2⟩ ⟨0, 0, 1/2⟩) 0
    (by norm_num [getBestQuote, getRaydiumQuote, getMeteoraQuote, randomBetween])).1

/-! ## Order State Store (C7) -/

theorem kvGet_kvSet_same (kv : List (String × ActiveOrder)) (k : String)
    (v : ActiveOrder) : kvGet (kvSet kv k v) k = some v := by
  simp [kvGet, kvSet]

theorem mem_saddList (s : List String) (x : String) : x ∈ saddList s x := by
  by_cases h : x ∈ s <;> simp [saddList, h]

theorem not_mem_sremList (s : List String) (x : String) : x ∉ sremList s x := by
  simp [sremList]

/-- C7: storing an order and reading it back returns a value equal to
the stored order, and updating the status of a stored order removes its
id from the `orders:active` index exactly when the new status is
terminal (`confirmed`, `failed` or `cancelled`), leaving it in the index
otherwise. -/
theorem redis_roundtrip_active_index (order : ActiveOrder) (st : RedisState)
    (status : OrderStatus) (updates : Option OrderUpdate) (now : ℚ) :
    getOrderFromRedis order.orderId (storeOrderInRedis order st) = some order ∧
    (isTerminalStatus status = true →
      order.orderId ∉ (updateOrderStatusInRedis order.orderId status updates now
        (storeOrderInRedis order st)).active) ∧
    (isTerminalStatus status = false →
      order.orderId ∈ (updateOrderStatusInRedis order.orderId status updates now
        (storeOrderInRedis order st)).active) := by
  refine ⟨kvGet_kvSet_same _ _ _, ?_, ?_⟩ <;>
  · intro hterm
    unfold updateOrderStatusInRedis storeOrderInRedis
    dsimp only
    rw [show kvGet (kvSet st.orders ("order:" ++ order.orderId) order)
          ("order:" ++ order.orderId) = some order from kvGet_kvSet_same _ _ _]
    dsimp only
    cases status <;> simp_all [isTerminalStatus, not_mem_sremList, mem_saddList]

/-- Witness for `redis_roundtrip_active_index`: a concrete store, update
to `confirmed`, and update to `routing`. -/
theorem redis_roundtrip_active_index_witness :
    getOrderFromRedis testOrder.orderId (storeOrderInRedis testOrder ⟨[], []⟩)
      = some testOrder ∧
    testOrder.orderId ∉ (updateOrderStatusInRedis testOrder.orderId .confirmed none 5
      (storeOrderInRedis testOrder ⟨[], []⟩)).active ∧
    testOrder.orderId ∈ (updateOrderStatusInRedis testOrder.orderId .routing none 5
      (storeOrderInRedis testOrder ⟨[], []⟩)).active :=
  ⟨(redis_roundtrip_active_index testOrder ⟨[], []⟩ .confirmed none 5).1,
   (redis_roundtrip_active_index testOrder ⟨[], []⟩ .confirmed none 5).2.1 rfl,
   (redis_roundtrip_active_index testOrder ⟨[], []⟩ .routing none 5).2.2 rfl⟩

/-! ## Order Worker lemmas -/

theorem finishFailure_emissions (order : ActiveOrder) (n maxA : Nat)
    (env : AttemptEnv) (tr : AttemptTrace) (err : WorkerError) :
    (finishFailure order n maxA env tr err).1.emissions.map (fun e => e.status)
      = tr.emissions.map (fun e => e.status) ++ [.failed] := by
  unfold finishFailure emitRecord redisRecord postgresRecord
  dsimp only
  split_ifs <;> simp

theorem finishFailure_result (order : ActiveOrder) (n maxA : Nat)
    (env : AttemptEnv) (tr : AttemptTrace) (err : WorkerError) :
    (finishFailure order n maxA env tr err).2
      = if n ≥ maxA then .failedFinal (errMessage err) else .retryScheduled err := by
  unfold finishFailure emitRecord redisRecord postgresRecord
  dsimp only
  split_ifs with h <;> simp_all

theorem finishFailure_redisCalls (order : ActiveOrder) (n maxA : Nat)
    (env : AttemptEnv) (tr : AttemptTrace) (err : WorkerError) :
    (finishFailure order n maxA env tr err).1.redisCalls
      = tr.redisCalls ++ [(.failed, !env.redisFailedWriteFails)] := by
  unfold finishFailure emitRecord redisRecord postgresRecord
  dsimp only
  split_ifs <;> simp

theorem finishFailure_postgresCalls (order : ActiveOrder) (n maxA : Nat)
    (env : AttemptEnv) (tr : AttemptTrace) (err : WorkerError) :
    (finishFailure order n maxA env tr err).1.postgresCalls
      = tr.postgresCalls ++
        (if n ≥ maxA then
          [({ order with
              status := .failed,
              failedAt := some env.now,
              failureReason :=
                some s!"Failed after {maxA} attempts: {errMessage err}" },
            !env.postgresFailedWriteFails)]
         else []) := by
  unfold finishFailure emitRecord redisRecord postgresRecord
  dsimp only
  split_ifs <;> simp_all

/-- C5 amended: within a single attempt the emitted statuses follow the
graph order `routing → building → submitted → confirmed` without
revisiting any state, except for a single trailing `failed` emission on
a failed attempt — which can even follow the `confirmed` emission, since
the worker emits `confirmed` *before* the terminal persistence whose
failure re-raises.  Retries rerun the whole attempt, so the lifecycle
sequence (the concatenation of the attempts' sequences) revisits
`routing` and may contain several `failed` emissions. -/
theorem attempt_emission_shapes (order : ActiveOrder) (n maxA : Nat)
    (env : AttemptEnv) :
    (processAttempt order n maxA env).1.emissions.map (fun e => e.status)
        = [.routing, .failed] ∨
    (processAttempt order n maxA env).1.emissions.map (fun e => e.status)
        = [.routing, .building, .failed] ∨
    (processAttempt order n maxA env).1.emissions.map (fun e => e.status)
        = [.routing, .building, .submitted, .confirmed, .failed] ∨
    (processAttempt order n maxA env).1.emissions.map (fun e => e.status)
        = [.routing, .building, .submitted, .confirmed] := by
  obtain ⟨qo, rr, rd, rb, so, rs, rc, pc, rf, pf, ef, nw⟩ := env
  rcases qo with msg | qres <;> rcases rd with _ | rmsg <;>
    rcases so with smsg | sres <;> rcases rc with _ | rcmsg <;>
    rcases pc with _ | pcmsg <;>
    simp [processAttempt, finishFailure_emissions, emitRecord, redisRecord,
      postgresRecord]

/-- C5 counterexample: an order whose first attempt fails transiently
and whose second attempt succeeds emits, over its whole lifecycle,
`routing, failed, routing, building, submitted, confirmed` — a `failed`
status is emitted on the non-final attempt and the walk then revisits
`routing`, so the lifecycle status sequence is not a strictly monotonic
non-revisiting walk ending in exactly one terminal state. -/
theorem lifecycle_walk_cex :
    lifecycleEmittedStatuses testOrder 3 [envTransient, envAllOk]
      = [.routing, .failed, .routing, .building, .submitted, .confirmed] ∧
    ¬ specMonotonicWalk (lifecycleEmittedStatuses testOrder 3 [envTransient, envAllOk]) := by
  have h : lifecycleEmittedStatuses testOrder 3 [envTransient, envAllOk]
      = [.routing, .failed, .routing, .building, .submitted, .confirmed] := by rfl
  exact ⟨h, by rw [h]; decide⟩

/-- C3 counterexample: a permanent (non-network-like) quote-fetch error
on attempt 1 of 3 — attempts remain below the maximum — is re-thrown to
the broker, so a retry IS scheduled rather than the order failing
terminally on that attempt. -/
theorem permanent_error_retried_cex :
    isNetworkLike "invalid token pair" = false ∧
    (1 : Nat) < 3 ∧
    (processAttempt testOrder 1 3 envPermanent).2
      = .retryScheduled (.plain "invalid token pair") ∧
    (processAttempt testOrder 1 3 envPermanent).2.isRetry = true := by
  refine ⟨by decide, by decide, by rfl, by rfl⟩

/-- C3 amended: every failure — transient or permanent alike — below the
maximum attempt count follows the same path: the `failed` status is
emitted, the interim failed state is written to the ephemeral store, and
the error is re-thrown so that a retry is scheduled; the worker never
fails terminally while attempts remain. -/
theorem worker_failure_always_retries_below_max (order : ActiveOrder)
    (n maxA : Nat) (env : AttemptEnv) (hn : n < maxA)
    (hfail : (processAttempt order n maxA env).2.isCompleted = false) :
    (processAttempt order n maxA env).2.isRetry = true ∧
    ((processAttempt order n maxA env).1.emissions.map (fun e => e.status)).getLast?
      = some .failed ∧
    (processAttempt order n maxA env).1.redisCalls.getLast?
      = some (.failed, !env.redisFailedWriteFails) := by
  obtain ⟨qo, rr, rd, rb, so, rs, rc, pc, rf, pf, ef, nw⟩ := env
  rcases qo with msg | qres <;> rcases rd with _ | rmsg <;>
    rcases so with smsg | sres <;> rcases rc with _ | rcmsg <;>
    rcases pc with _ | pcmsg <;>
    simp_all [processAttempt, finishFailure_result, finishFailure_emissions,
      finishFailure_redisCalls, emitRecord, redisRecord, postgresRecord,
      AttemptResult.isRetry, AttemptResult.isCompleted] <;>
    split_ifs <;> first | omega | rfl | simp_all

/-- Witness for `worker_failure_always_retries_below_max` on the
concrete transient first attempt. -/
theorem worker_failure_always_retries_below_max_witness :
    (processAttempt testOrder 1 3 envTransient).2.isRetry = true ∧
    ((processAttempt testOrder 1 3 envTransient).1.emissions.map
      (fun e => e.status)).getLast? = some .failed :=
  ⟨(worker_failure_always_retries_below_max testOrder 1 3 envTransient
      (by omega) (by rfl)).1,
   (worker_failure_always_retries_below_max testOrder 1 3 envTransient
      (by omega) (by rfl)).2.1⟩

/-- C2: the queue's default of `workerMaxAttempts (some 3) = 3` attempts
is enforced; on a failing attempt with `n ≥ 3` the order is marked
failed with a failure reason carrying the attempt count, the failed
snapshot is written durably (the only durable write of the failure
path), and no retry is scheduled; on a failing attempt with `n < 3` a
retry is scheduled, the interim failed state goes to the ephemeral store,
and no successful durable write occurs. -/
theorem worker_exhaustion_durable_persistence (order : ActiveOrder) (n : Nat)
    (env : AttemptEnv)
    (hfail : (processAttempt order n 3 env).2.isCompleted = false) :
    workerMaxAttempts (some orderQueueDefaultJobOptions.attempts) = 3 ∧
    (n ≥ 3 →
      (∃ emsg,
        (processAttempt order n 3 env).2 = .failedFinal emsg ∧
        (processAttempt order n 3 env).1.postgresCalls.getLast?
          = some ({ order with
                    status := .failed,
                    failedAt := some env.now,
                    failureReason := some s!"Failed after {(3 : Nat)} attempts: {emsg}" },
                  !env.postgresFailedWriteFails)) ∧
      (processAttempt order n 3 env).2.isRetry = false ∧
      (processAttempt order n 3 env).1.redisCalls.getLast?
        = some (.failed, !env.redisFailedWriteFails) ∧
      ((processAttempt order n 3 env).1.emissions.map (fun e => e.status)).getLast?
        = some .failed) ∧
    (n < 3 →
      (processAttempt order n 3 env).2.isRetry = true ∧
      (∀ p ∈ (processAttempt order n 3 env).1.postgresCalls, p.2 = false) ∧
      (processAttempt order n 3 env).1.redisCalls.getLast?
        = some (.failed, !env.redisFailedWriteFails)) := by
  obtain ⟨qo, rr, rd, rb, so, rs, rc, pc, rf, pf, ef, nw⟩ := env
  refine ⟨rfl, fun hge => ?_, fun hlt => ?_⟩
  · rcases qo with msg | qres <;> rcases rd with _ | rmsg <;>
      rcases so with smsg | sres <;> rcases rc with _ | rcmsg <;>
      rcases pc with _ | pcmsg <;>
      simp_all [processAttempt, finishFailure_result, finishFailure_postgresCalls,
        finishFailure_redisCalls, finishFailure_emissions, emitRecord, redisRecord,
        postgresRecord, AttemptResult.isRetry, AttemptResult.isCompleted] <;>
      split_ifs <;> first | omega | rfl | simp_all
  · rcases qo with msg | qres <;> rcases rd with _ | rmsg <;>
      rcases so with smsg | sres <;> rcases rc with _ | rcmsg <;>
      rcases pc with _ | pcmsg <;>
      simp_all [processAttempt, finishFailure_result, finishFailure_postgresCalls,
        finishFailure_redisCalls, finishFailure_emissions, emitRecord, redisRecord,
        postgresRecord, AttemptResult.isRetry, AttemptResult.isCompleted] <;>
      split_ifs <;> first | omega | rfl | simp_all

/-- Witness for `worker_exhaustion_durable_persistence` on a concrete
exhausted third attempt. -/
theorem worker_exhaustion_durable_persistence_witness :
    workerMaxAttempts (some orderQueueDefaultJobOptions.attempts) = 3 ∧
    (∃ emsg, (processAttempt testOrder 3 3 envPermanent).2 = .failedFinal emsg) := by
  have h := worker_exhaustion_durable_persistence testOrder 3 envPermanent (by rfl)
  exact ⟨h.1, ((h.2.1 (by omega)).1).imp (fun emsg hh => hh.1)⟩

/-- C4 counterexample: with every other effect succeeding, an
ephemeral-store write failure at the confirmed transition is *not*
swallowed: the very same attempt that completes (with one durable write)
when the write succeeds is instead aborted and re-thrown for retry, and
the durable write is never attempted. -/
theorem ephemeral_write_failure_aborts_cex :
    (processAttempt testOrder 1 3 envAllOk).2.isCompleted = true ∧
    (processAttempt testOrder 1 3 envAllOk).1.postgresCalls.length = 1 ∧
    (processAttempt testOrder 1 3 envRedisConfirm).2
      = .retryScheduled (.plain "redis write failed") ∧
    (processAttempt testOrder 1 3 envRedisConfirm).1.postgresCalls = [] :=
  ⟨rfl, rfl, rfl, rfl⟩

/-- C4 amended: failures of the notification emission (any transition)
and ephemeral-store write failures at the routing, building, submitted
and failed-snapshot call sites are logged and swallowed — they change
nothing about the attempt's result, durable writes, emitted
status/message sequence, or the sequence of ephemeral-store call sites.
(The ephemeral writes that attach the routing decision and persist the
confirmed terminal state are *not* covered: their failures escalate, as
the counterexample shows.) -/
theorem swallowed_failures_never_affect_outcome (order : ActiveOrder)
    (n maxA : Nat) (env : AttemptEnv) (b1 b2 b3 b4 : Bool)
    (f : OrderStatus → Bool) :
    (processAttempt order n maxA (overrideSwallowedSites env b1 b2 b3 b4 f)).2
      = (processAttempt order n maxA env).2 ∧
    (processAttempt order n maxA
        (overrideSwallowedSites env b1 b2 b3 b4 f)).1.postgresCalls
      = (processAttempt order n maxA env).1.postgresCalls ∧
    (processAttempt order n maxA
        (overrideSwallowedSites env b1 b2 b3 b4 f)).1.emissions.map
        (fun e => (e.status, e.message))
      = (processAttempt order n maxA env).1.emissions.map
          (fun e => (e.status, e.message)) ∧
    (processAttempt order n maxA
        (overrideSwallowedSites env b1 b2 b3 b4 f)).1.redisCalls.map Prod.fst
      = (processAttempt order n maxA env).1.redisCalls.map Prod.fst := by
  obtain ⟨qo, rr, rd, rb, so, rs, rc, pc, rf, pf, ef, nw⟩ := env
  rcases qo with msg | qres <;> rcases rd with _ | rmsg <;>
    rcases so with smsg | sres <;> rcases rc with _ | rcmsg <;>
    rcases pc with _ | pcmsg <;>
    simp [processAttempt, overrideSwallowedSites, finishFailure, emitRecord,
      redisRecord, postgresRecord] <;>
    split_ifs <;> simp

/-! ## Notification Broadcaster lemmas (C6) -/

theorem assocGet_assocDelete_ne {α : Type} (l : List (String × α)) (k c : String)
    (hc : c ≠ k) : assocGet (assocDelete l k) c = assocGet l c := by
  induction l with
  | nil => rfl
  | cons p rest ih =>
    by_cases hp : p.1 = k <;> by_cases hpc : p.1 = c <;>
      simp_all [assocDelete, assocGet, List.filter_cons]

theorem assocGet_assocDelete_self {α : Type} (l : List (String × α)) (k : String) :
    assocGet (assocDelete l k) k = none := by
  induction l with
  | nil => rfl
  | cons p rest ih =>
    by_cases hp : p.1 = k <;> simp_all [assocDelete, assocGet, List.filter_cons]

theorem unregisterConnection_connGet_ne (st : WSState) (k c : String)
    (hc : c ≠ k) :
    assocGet (unregisterConnection st k).connections c = assocGet st.connections c := by
  unfold unregisterConnection
  rcases hk : assocGet st.connections k with _ | conn
  · rfl
  · exact assocGet_assocDelete_ne _ _ _ hc

theorem unregisterConnection_connGet_self (st : WSState) (k : String) :
    assocGet (unregisterConnection st k).connections k = none := by
  unfold unregisterConnection
  rcases hk : assocGet st.connections k with _ | conn
  · exact hk
  · exact assocGet_assocDelete_self _ _

theorem isLive_unregisterConnection_ne (st : WSState) (k c : String) (hc : c ≠ k) :
    isLive (unregisterConnection st k) c = isLive st c := by
  unfold isLive
  rw [unregisterConnection_connGet_ne st k c hc]

theorem emitLoop_connGet_not_mem {α : Type} (oid : String) (ev : α)
    (ids : List String) (st : WSState) (c : String) (hc : c ∉ ids) :
    assocGet (emitLoop oid ev st ids).1.connections c = assocGet st.connections c := by
  induction ids generalizing st with
  | nil => rfl
  | cons i rest ih =>
    have hci : c ≠ i := fun h => hc (h ▸ List.mem_cons_self i rest)
    have hcr : c ∉ rest := fun h => hc (List.mem_cons_of_mem i h)
    rcases hsi : assocGet st.connections i with _ | conn
    · simp only [emitLoop, hsi]
      exact ih _ hcr
    · by_cases ho : conn.isOpen <;> by_cases hs : conn.sendFails <;>
        simp [emitLoop, hsi, ho, hs] <;>
        rw [ih _ hcr] <;>
        first
        | rfl
        | exact unregisterConnection_connGet_ne st i c hci

theorem emitLoop_sends {α : Type} (oid : String) (ev : α)
    (ids : List String) (st : WSState) (h : ids.Nodup) :
    (emitLoop oid ev st ids).2
      = (ids.filter (fun c => isLive st c)).map (fun c => (c, ev)) := by
  induction ids generalizing st with
  | nil => rfl
  | cons i rest ih =>
    have hi : i ∉ rest := (List.nodup_cons.1 h).1
    have hrest : rest.Nodup := (List.nodup_cons.1 h).2
    have hcongr : ∀ st' : WSState,
        (∀ c ∈ rest, isLive st' c = isLive st c) →
        (rest.filter (fun c => isLive st' c)).map (fun c => (c, ev))
          = (rest.filter (fun c => isLive st c)).map (fun c => (c, ev)) := by
      intro st' hp
      rw [List.filter_congr (fun c hcm => by rw [hp c hcm])]
    rcases hsi : assocGet st.connections i with _ | conn
    · have hlive : isLive st i = false := by simp [isLive, hsi]
      simp only [emitLoop, hsi, List.filter_cons, hlive, if_false,
        Bool.false_eq_true]
      rw [ih _ hrest]
      exact hcongr _ (fun c _ => rfl)
    · by_cases ho : conn.isOpen <;> by_cases hs : conn.sendFails
      · have hlive : isLive st i = false := by simp [isLive, hsi, ho, hs]
        simp only [emitLoop, hsi, ho, hs, if_true, if_false, List.filter_cons,
          hlive, Bool.false_eq_true, Bool.true_eq_false]
        rw [ih _ hrest]
        exact hcongr _ (fun c hcm => isLive_unregisterConnection_ne st i c
          (fun hceq => hi (hceq ▸ hcm)))
      · have hlive : isLive st i = true := by simp [isLive, hsi, ho, hs]
        simp only [emitLoop, hsi, ho, hs, if_true, if_false, List.filter_cons,
          hlive, List.map_cons, Bool.false_eq_true, Bool.true_eq_false]
        rw [ih _ hrest]
      · have hlive : isLive st i = false := by simp [isLive, hsi, ho]
        simp only [emitLoop, hsi, ho, hs, if_true, if_false, List.filter_cons,
          hlive, Bool.false_eq_true, Bool.true_eq_false]
        rw [ih _ hrest]
        exact hcongr _ (fun c hcm => isLive_unregisterConnection_ne st i c
          (fun hceq => hi (hceq ▸ hcm)))
      · have hlive : isLive st i = false := by simp [isLive, hsi, ho]
        simp only [emitLoop, hsi, ho, hs, if_true, if_false, List.filter_cons,
          hlive, Bool.false_eq_true, Bool.true_eq_false]
        rw [ih _ hrest]
        exact hcongr _ (fun c hcm => isLive_unregisterConnection_ne st i c
          (fun hceq => hi (hceq ▸ hcm)))

theorem emitLoop_removes_dead {α : Type} (oid : String) (ev : α)
    (ids : List String) (st : WSState) (h : ids.Nodup) (c : String)
    (hcm : c ∈ ids) (hdead : isLive st c = false) :
    assocGet (emitLoop oid ev st ids).1.connections c = none := by
  induction ids generalizing st with
  | nil => cases hcm
  | cons i rest ih =>
    have hi : i ∉ rest := (List.nodup_cons.1 h).1
    have hrest : rest.Nodup := (List.nodup_cons.1 h).2
    by_cases hci : c = i
    · subst hci
      rcases hsi : assocGet st.connections c with _ | conn
      · simp only [emitLoop, hsi]
        rw [emitLoop_connGet_not_mem _ _ _ _ _ hi]
        exact hsi
      · by_cases ho : conn.isOpen <;> by_cases hs : conn.sendFails <;>
          simp only [emitLoop, hsi, ho, hs, if_true, if_false,
            Bool.false_eq_true, Bool.true_eq_false]
        · rw [emitLoop_connGet_not_mem _ _ _ _ _ hi]
          exact unregisterConnection_connGet_self st c
        · exact absurd hdead (by simp [isLive, hsi, ho, hs])
        · rw [emitLoop_connGet_not_mem _ _ _ _ _ hi]
          exact unregisterConnection_connGet_self st c
        · rw [emitLoop_connGet_not_mem _ _ _ _ _ hi]
          exact unregisterConnection_connGet_self st c
    · have hcr : c ∈ rest := by
        rcases List.mem_cons.1 hcm with h1 | h1
        · exact absurd h1 hci
        · exact h1
      rcases hsi : assocGet st.connections i with _ | conn
      · simp only [emitLoop, hsi]
        exact ih _ hrest hcr hdead
      · by_cases ho : conn.isOpen <;> by_cases hs : conn.sendFails <;>
          simp only [emitLoop, hsi, ho, hs, if_true, if_false]
        · exact ih _ hrest hcr
            (by rw [isLive_unregisterConnection_ne st i c hci]; exact hdead)
        · exact ih _ hrest hcr hdead
        · exact ih _ hrest hcr
            (by rw [isLive_unregisterConnection_ne st i c hci]; exact hdead)
        · exact ih _ hrest hcr
            (by rw [isLive_unregisterConnection_ne st i c hci]; exact hdead)

/-- C6: `emitStatusUpdate` on an order with no subscriber entry, or with
an empty subscriber set, is a no-op that returns normally; otherwise the
one shared event value (serialized once) is sent to exactly the
registered, open, non-erroring subscribers — the cleanup of dead
channels never deprives a live subscriber of its delivery — and every
subscriber found stale, closed or erroring is removed from the
connection registry. -/
theorem emitStatusUpdate_fanout {α : Type} (st : WSState) (orderId : String)
    (ev : α) :
    (assocGet st.orderConnections orderId = none →
      emitStatusUpdate st orderId ev = (st, [])) ∧
    (assocGet st.orderConnections orderId = some [] →
      emitStatusUpdate st orderId ev = (st, [])) ∧
    (∀ subs, assocGet st.orderConnections orderId = some subs → subs.Nodup →
      (emitStatusUpdate st orderId ev).2
        = (subs.filter (fun c => isLive st c)).map (fun c => (c, ev)) ∧
      (∀ c ∈ subs, isLive st c = false →
        assocGet (emitStatusUpdate st orderId ev).1.connections c = none)) := by
  refine ⟨?_, ?_, ?_⟩
  · intro h
    simp only [emitStatusUpdate, h]
  · intro h
    simp only [emitStatusUpdate, h, List.isEmpty_nil, if_true]
  · intro subs hs hnd
    rcases subs with _ | ⟨i, rest⟩
    · refine ⟨?_, ?_⟩
      · simp only [emitStatusUpdate, hs, List.isEmpty_nil, if_true]
        rfl
      · intro c hc
        cases hc
    · have hne : ((i :: rest).isEmpty) = false := rfl
      refine ⟨?_, ?_⟩
      · simp only [emitStatusUpdate, hs, hne, Bool.false_eq_true, if_false]
        exact emitLoop_sends orderId ev (i :: rest) st hnd
      · intro c hc hdead
        simp only [emitStatusUpdate, hs, hne, Bool.false_eq_true, if_false]
        exact emitLoop_removes_dead orderId ev (i :: rest) st hnd c hc hdead

/-- Witness for `emitStatusUpdate_fanout`: three subscribers on one
order, the second of which is closed — the other two receive the same
event and the closed one is removed from the registry. -/
theorem emitStatusUpdate_fanout_witness :
    (emitStatusUpdate wsThreeSubs "order_1" (0 : Nat)).2
      = [("conn_1", 0), ("conn_3", 0)] ∧
    assocGet (emitStatusUpdate wsThreeSubs "order_1" (0 : Nat)).1.connections
      "conn_2" = none := by
  have h := (emitStatusUpdate_fanout wsThreeSubs "order_1" (0 : Nat)).2.2
    ["conn_1", "conn_2", "conn_3"] rfl (by decide)
  refine ⟨?_, h.2 "conn_2" (by decide) (by rfl)⟩
  rw [h.1]
  rfl

end OrderEngine
